import Mathlib

/-!
Shallow embedding of src/addon/renderwake.py (RenderWake Blender add-on).

The three wake-lock backends (WakeLockWindows, WakeLockMac, WakeLockLinux)
are modelled as explicit state machines.  OS interaction is made explicit:

* Windows: the state of the native thread-execution flags is the value last
  passed to SetThreadExecutionState (`sysFlags`); every issued call is also
  recorded in the ghost trace `calls`.  The ctypes call itself does not raise
  and, as the source assumes, always takes effect.
* macOS / Linux: a `ProcEnv` environment says whether spawning the helper
  binary succeeds (`spawnOk`, i.e. subprocess.Popen does not raise), whether
  shutil.which finds systemd-inhibit (`hasCmd`, Linux only), which pid a
  fresh spawn gets (`freshPid`), and which pids are currently live
  (`alive p` = true iff Popen.poll() returns None for pid p).  Ghost traces
  `spawned` and `terminated` record the Popen and terminate() calls issued.

Fallible operations (Python code that can let an exception escape) return
`Except Unit`; `.error ()` is an escaped exception.
-/

namespace RenderWake

/-! ## Windows backend: WakeLockWindows -/

def ES_CONTINUOUS : Nat := 0x80000000

def ES_SYSTEM_REQUIRED : Nat := 0x00000001

/-- State of a WakeLockWindows instance together with the native flag state.
`active` is self._active, `kernel32` is whether self._kernel32 loaded,
`sysFlags` is the value last passed to SetThreadExecutionState (none if the
call was never issued), `calls` is the ghost trace of all issued calls. -/
structure WinState where
  active : Bool
  kernel32 : Bool
  sysFlags : Option Nat
  calls : List Nat
deriving Repr, DecidableEq

/-- WakeLockWindows.__init__: _active = False; _kernel32 loads or not. -/
def winInit (k32 : Bool) : WinState :=
  { active := false, kernel32 := k32, sysFlags := none, calls := [] }

/-- WakeLockWindows.acquire: if not self._kernel32: return; else issue
SetThreadExecutionState(ES_CONTINUOUS | ES_SYSTEM_REQUIRED) and set _active. -/
def winAcquire (s : WinState) : WinState :=
  if s.kernel32 = false then s
  else { s with sysFlags := some (ES_CONTINUOUS ||| ES_SYSTEM_REQUIRED),
                calls := s.calls ++ [ES_CONTINUOUS ||| ES_SYSTEM_REQUIRED],
                active := true }

/-- WakeLockWindows.release: if not self._kernel32: return; else issue
SetThreadExecutionState(ES_CONTINUOUS) and clear _active. -/
def winRelease (s : WinState) : WinState :=
  if s.kernel32 = false then s
  else { s with sysFlags := some ES_CONTINUOUS,
                calls := s.calls ++ [ES_CONTINUOUS],
                active := false }

/-- WakeLockWindows.is_active: return self._active. -/
def winIsActive (s : WinState) : Bool := s.active

/-- The native mechanism is engaged iff the flags last passed to
SetThreadExecutionState include ES_SYSTEM_REQUIRED. -/
def winEngaged (s : WinState) : Bool :=
  match s.sysFlags with
  | none => false
  | some f => decide (f &&& ES_SYSTEM_REQUIRED ≠ 0)

/-- Observable lock state of the Windows backend (everything except the
ghost trace of issued native calls). -/
def winObs (s : WinState) : Bool × Bool × Option Nat :=
  (s.active, s.kernel32, s.sysFlags)

/-- Sequences of direct backend calls (is_active has no side effect). -/
inductive WOp where
  | acq : WOp
  | rel : WOp
deriving Repr, DecidableEq

def winStep (s : WinState) : WOp → WinState
  | .acq => winAcquire s
  | .rel => winRelease s

def winRun (ops : List WOp) (s : WinState) : WinState :=
  ops.foldl winStep s

/-- States reachable by a WakeLockWindows instance from construction. -/
inductive WinReach : WinState → Prop where
  | init (k32 : Bool) : WinReach (winInit k32)
  | acq {s : WinState} : WinReach s → WinReach (winAcquire s)
  | rel {s : WinState} : WinReach s → WinReach (winRelease s)

/-! ## macOS / Linux backends: WakeLockMac, WakeLockLinux -/

/-- State of a WakeLockMac / WakeLockLinux instance: `proc` is self._proc
(the pid of the held Popen handle), `spawned` and `terminated` are ghost
traces of the Popen calls and terminate() calls issued. -/
structure ProcState where
  proc : Option Nat
  spawned : List Nat
  terminated : List Nat
deriving Repr, DecidableEq

def procInit : ProcState := { proc := none, spawned := [], terminated := [] }

/-- OS environment for the process-based backends.  `alive p` is whether
pid p's poll() returns None; `freshPid` is the pid a successful Popen
returns; `spawnOk` is whether Popen succeeds (the helper binary can be
executed); `hasCmd` is whether shutil.which finds systemd-inhibit. -/
structure ProcEnv where
  alive : Nat → Bool
  freshPid : Nat
  spawnOk : Bool
  hasCmd : Bool

/-- A freshly spawned process is live at the moment of the spawn. -/
def ProcEnv.wf (env : ProcEnv) : Prop :=
  env.spawnOk = true → env.alive env.freshPid = true

/-- Python: self._proc and self._proc.poll() is None (a Popen object is
always truthy, so this is: a handle is held and its process is live). -/
def procLive (env : ProcEnv) (s : ProcState) : Bool :=
  match s.proc with
  | some p => env.alive p
  | none => false

/-- WakeLockMac.acquire: return early if the held helper is live, else
self._proc = subprocess.Popen(["caffeinate", "-d"], ...).  Popen raises
(e.g. FileNotFoundError) when caffeinate cannot be executed; there is no
try/except, so the exception escapes and self._proc keeps its old value. -/
def macAcquire (env : ProcEnv) (s : ProcState) : Except Unit ProcState :=
  if procLive env s then .ok s
  else if env.spawnOk then
    .ok { s with proc := some env.freshPid, spawned := s.spawned ++ [env.freshPid] }
  else .error ()

/-- WakeLockMac.release: if the held helper is live, try terminate()
(failures swallowed); in all cases self._proc = None. -/
def macRelease (env : ProcEnv) (s : ProcState) : ProcState :=
  match s.proc with
  | some p =>
      if env.alive p then { s with proc := none, terminated := s.terminated ++ [p] }
      else { s with proc := none }
  | none => { s with proc := none }

/-- WakeLockMac.is_active: self._proc is not None and self._proc.poll() is None. -/
def macIsActive (env : ProcEnv) (s : ProcState) : Bool := procLive env s

/-- WakeLockLinux.acquire: return early if the held helper is live; if
shutil.which finds systemd-inhibit, spawn it (Popen can still raise, with
no try/except around it); otherwise self._proc = None. -/
def linuxAcquire (env : ProcEnv) (s : ProcState) : Except Unit ProcState :=
  if procLive env s then .ok s
  else if env.hasCmd then
    if env.spawnOk then
      .ok { s with proc := some env.freshPid, spawned := s.spawned ++ [env.freshPid] }
    else .error ()
  else .ok { s with proc := none }

/-- WakeLockLinux.release: identical body to WakeLockMac.release. -/
def linuxRelease (env : ProcEnv) (s : ProcState) : ProcState :=
  match s.proc with
  | some p =>
      if env.alive p then { s with proc := none, terminated := s.terminated ++ [p] }
      else { s with proc := none }
  | none => { s with proc := none }

/-- WakeLockLinux.is_active: identical body to WakeLockMac.is_active. -/
def linuxIsActive (env : ProcEnv) (s : ProcState) : Bool := procLive env s

/-- States reachable by a WakeLockMac instance from construction, under any
sequence of environments (only completed calls change state; an acquire
whose Popen raised leaves the state as it was). -/
inductive MacReach : ProcState → Prop where
  | init : MacReach procInit
  | acq {env : ProcEnv} {s s' : ProcState} :
      MacReach s → macAcquire env s = .ok s' → MacReach s'
  | rel {env : ProcEnv} {s : ProcState} : MacReach s → MacReach (macRelease env s)

/-- States reachable by a WakeLockLinux instance from construction. -/
inductive LinuxReach : ProcState → Prop where
  | init : LinuxReach procInit
  | acq {env : ProcEnv} {s s' : ProcState} :
      LinuxReach s → linuxAcquire env s = .ok s' → LinuxReach s'
  | rel {env : ProcEnv} {s : ProcState} : LinuxReach s → LinuxReach (linuxRelease env s)

/-! ## Backend selection: make_wakelock -/

inductive BackendKind where
  | windows : BackendKind
  | mac : BackendKind
  | linux : BackendKind
deriving Repr, DecidableEq

/-- make_wakelock: sys.platform.startswith("win") gives WakeLockWindows,
sys.platform == "darwin" gives WakeLockMac, anything else WakeLockLinux.
Python strings are embedded as lists of characters; startswith is prefix. -/
def make_wakelock (platform : List Char) : BackendKind :=
  if "win".toList.isPrefixOf platform then .windows
  else if platform = "darwin".toList then .mac
  else .linux

/-! ## Controller: module-level functions over the shared _wakelock -/

/-- The wake-lock interface the controller calls through: acquire can let an
exception escape, release and is_active cannot. -/
structure Backend (σ ε : Type) where
  acquire : ε → σ → Except Unit σ
  release : ε → σ → σ
  is_active : ε → σ → Bool

def winBackend : Backend WinState Unit :=
  { acquire := fun _ s => .ok (winAcquire s),
    release := fun _ s => winRelease s,
    is_active := fun _ s => winIsActive s }

def macBackend : Backend ProcState ProcEnv :=
  { acquire := macAcquire, release := macRelease, is_active := macIsActive }

def linuxBackend : Backend ProcState ProcEnv :=
  { acquire := linuxAcquire, release := linuxRelease, is_active := linuxIsActive }

/-- AddonPreferences: the three boolean properties. -/
structure Prefs where
  enabled : Bool
  show_indicator : Bool
  verbose : Bool
deriving Repr, DecidableEq

/-- _acquire_if_enabled: _safe_get_prefs() returning None (preferences
inaccessible) or enabled being False returns without touching the lock;
otherwise acquire is called when is_active() is false.  The trailing
statusbar redraw is cosmetic and not modelled. -/
def acquire_if_enabled {σ ε : Type} (B : Backend σ ε) (prefs : Option Prefs)
    (env : ε) (s : σ) : Except Unit σ :=
  match prefs with
  | none => .ok s
  | some p =>
      if p.enabled = false then .ok s
      else if B.is_active env s then .ok s
      else B.acquire env s

/-- _release: if _wakelock.is_active(): _wakelock.release().  (_log only
prints; the statusbar redraw is cosmetic.) -/
def releaseCtl {σ ε : Type} (B : Backend σ ε) (env : ε) (s : σ) : σ :=
  if B.is_active env s then B.release env s else s

/-- on_render_pre handler: calls _acquire_if_enabled. -/
def on_render_pre {σ ε : Type} (B : Backend σ ε) (prefs : Option Prefs)
    (env : ε) (s : σ) : Except Unit σ :=
  acquire_if_enabled B prefs env s

/-- on_render_post handler: calls _release, which reads no preference for
control flow (the prefs argument is carried only to state that fact). -/
def on_render_post {σ ε : Type} (B : Backend σ ε) (_prefs : Option Prefs)
    (env : ε) (s : σ) : σ :=
  releaseCtl B env s

/-- on_render_cancel handler: calls _release, like on_render_post. -/
def on_render_cancel {σ ε : Type} (B : Backend σ ε) (_prefs : Option Prefs)
    (env : ε) (s : σ) : σ :=
  releaseCtl B env s

/-! ## Host integration: register / unregister / atexit -/

/-- The module-level callables that get put into host lists. -/
inductive HostFn where
  | onRenderPreFn : HostFn
  | onRenderPostFn : HostFn
  | onRenderCancelFn : HostFn
  | releaseHook : HostFn
  | drawStatusIndicator : HostFn
deriving Repr, DecidableEq

/-- Ghost record of the steps register()/unregister() perform, in order. -/
inductive HostAct where
  | registerClassesAct : HostAct
  | addHandlersAct : HostAct
  | appendStatusbarAct : HostAct
  | addExitHookAct : HostAct
  | releaseAct : HostAct
  | removeHandlersAct : HostAct
  | removeStatusbarAct : HostAct
  | unregisterClassesAct : HostAct
  | redrawAct : HostAct
deriving Repr, DecidableEq

/-- Blender-side state the add-on mutates: the three handler lists, the
statusbar draw list, the atexit hook list, whether KeepAwakePreferences is
registered, whether bpy.types has STATUSBAR_HT_header, and the lock.
`actions` is a ghost trace of the steps performed. -/
structure Host (σ : Type) where
  renderPre : List HostFn
  renderPost : List HostFn
  renderCancel : List HostFn
  statusbar : List HostFn
  exitHooks : List HostFn
  classesReg : Bool
  hasStatusbarHeader : Bool
  lock : σ
  actions : List HostAct

/-- _safe_add_handler: append fn if it is not already in the list. -/
def safe_add_handler (lst : List HostFn) (fn : HostFn) : List HostFn :=
  if fn ∈ lst then lst else lst ++ [fn]

/-- _safe_remove_handler: list.remove removes the first occurrence, guarded
by membership. -/
def safe_remove_handler (lst : List HostFn) (fn : HostFn) : List HostFn :=
  if fn ∈ lst then lst.erase fn else lst

/-- register(): register_class(KeepAwakePreferences); add the three render
handlers; append the statusbar draw function (when the header exists);
atexit.register(_release) (atexit appends unconditionally); redraw. -/
def register {σ : Type} (h : Host σ) : Host σ :=
  let h1 := { h with classesReg := true,
                     actions := h.actions ++ [HostAct.registerClassesAct] }
  let h2 := { h1 with
      renderPre := safe_add_handler h1.renderPre .onRenderPreFn,
      renderPost := safe_add_handler h1.renderPost .onRenderPostFn,
      renderCancel := safe_add_handler h1.renderCancel .onRenderCancelFn,
      actions := h1.actions ++ [HostAct.addHandlersAct] }
  let h3 := { h2 with
      statusbar := if h2.hasStatusbarHeader then h2.statusbar ++ [HostFn.drawStatusIndicator]
                   else h2.statusbar,
      actions := h2.actions ++ [HostAct.appendStatusbarAct] }
  let h4 := { h3 with exitHooks := h3.exitHooks ++ [HostFn.releaseHook],
                      actions := h3.actions ++ [HostAct.addExitHookAct] }
  { h4 with actions := h4.actions ++ [HostAct.redrawAct] }

/-- unregister(): _release() first, then remove the three render handlers,
remove the statusbar draw function, unregister the classes, redraw. -/
def unregister {σ ε : Type} (B : Backend σ ε) (env : ε) (h : Host σ) : Host σ :=
  let h1 := { h with lock := releaseCtl B env h.lock,
                     actions := h.actions ++ [HostAct.releaseAct] }
  let h2 := { h1 with
      renderPre := safe_remove_handler h1.renderPre .onRenderPreFn,
      renderPost := safe_remove_handler h1.renderPost .onRenderPostFn,
      renderCancel := safe_remove_handler h1.renderCancel .onRenderCancelFn,
      actions := h1.actions ++ [HostAct.removeHandlersAct] }
  let h3 := { h2 with
      statusbar := if h2.hasStatusbarHeader then h2.statusbar.erase .drawStatusIndicator
                   else h2.statusbar,
      actions := h2.actions ++ [HostAct.removeStatusbarAct] }
  let h4 := { h3 with classesReg := false,
                      actions := h3.actions ++ [HostAct.unregisterClassesAct] }
  { h4 with actions := h4.actions ++ [HostAct.redrawAct] }

/-! ## Concrete environments and states for tests and witnesses -/

/-- Helper tool present; spawned processes stay live. -/
def envLiveTool : ProcEnv :=
  { alive := fun _ => true, freshPid := 1, spawnOk := true, hasCmd := true }

/-- Helper tool absent: which fails and Popen raises. -/
def envNoTool : ProcEnv :=
  { alive := fun _ => false, freshPid := 0, spawnOk := false, hasCmd := false }

/-- A fresh host state with empty lists, for witnesses. -/
def host0 {σ : Type} (s : σ) : Host σ :=
  { renderPre := [], renderPost := [], renderCancel := [], statusbar := [],
    exitHooks := [], classesReg := false, hasStatusbarHeader := true,
    lock := s, actions := [] }

/-! ## Helper lemmas -/

/-- Invariant of reachable WakeLockWindows states: _active implies the
binding loaded, and _active mirrors engagement of the native flags. -/
lemma winReach_inv {s : WinState} (h : WinReach s) :
    (s.active = true → s.kernel32 = true) ∧ s.active = winEngaged s := by
  induction h with
  | init k32 => simp [winInit, winEngaged]
  | @acq s hs ih =>
      unfold winAcquire
      by_cases hk : s.kernel32 = false
      · simpa [hk] using ih
      · have hk2 : s.kernel32 = true := by simp at hk; exact hk
        simp [hk2, winEngaged, ES_CONTINUOUS, ES_SYSTEM_REQUIRED]
  | @rel s hs ih =>
      unfold winRelease
      by_cases hk : s.kernel32 = false
      · simpa [hk] using ih
      · have hk2 : s.kernel32 = true := by simp at hk; exact hk
        simp [hk2, winEngaged, ES_CONTINUOUS, ES_SYSTEM_REQUIRED]

/-- In every reachable WakeLockMac state, a held process handle points to a
process this backend spawned. -/
lemma macReach_spawned {s : ProcState} (h : MacReach s) :
    ∀ p, s.proc = some p → p ∈ s.spawned := by
  induction h with
  | init => intro p hp; simp [procInit] at hp
  | @acq env s s' hs heq ih =>
      intro p hp
      unfold macAcquire at heq
      split at heq
      · cases heq; exact ih p hp
      · split at heq
        · cases heq
          simp only at hp
          cases hp
          simp
        · cases heq
  | @rel env s hs ih =>
      intro p hp
      unfold macRelease at hp
      split at hp
      · split at hp <;> simp at hp
      · simp at hp

/-- In every reachable WakeLockLinux state, a held process handle points to
a process this backend spawned. -/
lemma linuxReach_spawned {s : ProcState} (h : LinuxReach s) :
    ∀ p, s.proc = some p → p ∈ s.spawned := by
  induction h with
  | init => intro p hp; simp [procInit] at hp
  | @acq env s s' hs heq ih =>
      intro p hp
      unfold linuxAcquire at heq
      split at heq
      · cases heq; exact ih p hp
      · split at heq
        · split at heq
          · cases heq
            simp only at hp
            cases hp
            simp
          · cases heq
        · cases heq
          simp only at hp
          cases hp
  | @rel env s hs ih =>
      intro p hp
      unfold linuxRelease at hp
      split at hp
      · split at hp <;> simp at hp
      · simp at hp

/-! ## Claim C1 -/

/-- C1, counterexample: on the macOS backend, when the caffeinate helper
cannot be spawned, the Popen exception escapes acquire() — contradicting
the claim that for every backend no exception escapes acquire() when the
platform mechanism or helper tool is unavailable. -/
theorem C1_counterexample :
    macAcquire envNoTool procInit = Except.error () := by
  rfl

/-- C1 (amended): when the platform mechanism or helper tool is
unavailable, is_active() reports false after acquire() on every backend,
and no exception escapes on Windows (binding missing: acquire is a no-op)
or Linux (systemd-inhibit missing: acquire completes, holding no process);
on macOS however a failed helper spawn lets the exception escape acquire()
(the lock state it leaves behind is unchanged, hence still inactive when
no handle was held). -/
theorem C1_graceful_degradation :
    (∀ s : WinState, s.kernel32 = false → s.active = false →
        winAcquire s = s ∧ winIsActive (winAcquire s) = false)
    ∧ (∀ (env : ProcEnv) (s : ProcState), env.hasCmd = false →
        procLive env s = false →
        linuxAcquire env s = .ok { s with proc := none }
        ∧ ∀ env2 : ProcEnv, linuxIsActive env2 { s with proc := none } = false)
    ∧ (∀ (env : ProcEnv) (s : ProcState), env.spawnOk = false →
        procLive env s = false →
        macAcquire env s = .error () ∧ macIsActive env s = false) := by
  refine ⟨?_, ?_, ?_⟩
  · intro s hk ha
    constructor
    · simp [winAcquire, hk]
    · simp [winAcquire, winIsActive, hk, ha]
  · intro env s hc hl
    constructor
    · simp [linuxAcquire, hl, hc]
    · intro env2
      simp [linuxIsActive, procLive]
  · intro env s hs hl
    constructor
    · simp [macAcquire, hl, hs]
    · simpa [macIsActive] using hl

/-- C1 witness: the amended claim at concrete inputs. -/
theorem C1_graceful_degradation_witness :
    ((winInit false).kernel32 = false ∧ (winInit false).active = false
      ∧ winIsActive (winAcquire (winInit false)) = false)
    ∧ (envNoTool.hasCmd = false ∧ procLive envNoTool procInit = false
      ∧ linuxAcquire envNoTool procInit = .ok { procInit with proc := none })
    ∧ (envNoTool.spawnOk = false ∧ macAcquire envNoTool procInit = .error ()
      ∧ macIsActive envNoTool procInit = false) :=
  ⟨⟨rfl, rfl, (C1_graceful_degradation.1 (winInit false) rfl rfl).2⟩,
   ⟨rfl, rfl, (C1_graceful_degradation.2.1 envNoTool procInit rfl rfl).1⟩,
   ⟨rfl, (C1_graceful_degradation.2.2 envNoTool procInit rfl rfl).1,
    (C1_graceful_degradation.2.2 envNoTool procInit rfl rfl).2⟩⟩

/-! ## Claim C2 -/

/-- C2: is_active() is true iff the native mechanism is engaged.  Windows:
for every reachable state, _active equals engagement of the last-issued
execution-state flags (the call, as the source assumes, takes effect).
macOS/Linux: is_active() is exactly liveness of the held helper process,
and in every reachable state the held handle is one the backend spawned. -/
theorem C2_is_active_iff_engaged :
    (∀ s : WinState, WinReach s → winIsActive s = winEngaged s)
    ∧ (∀ (env : ProcEnv) (s : ProcState), macIsActive env s = procLive env s)
    ∧ (∀ s : ProcState, MacReach s → ∀ p, s.proc = some p → p ∈ s.spawned)
    ∧ (∀ (env : ProcEnv) (s : ProcState), linuxIsActive env s = procLive env s)
    ∧ (∀ s : ProcState, LinuxReach s → ∀ p, s.proc = some p → p ∈ s.spawned) := by
  refine ⟨?_, ?_, ?_, ?_, ?_⟩
  · intro s hs; exact (winReach_inv hs).2
  · intro env s; rfl
  · intro s hs; exact macReach_spawned hs
  · intro env s; rfl
  · intro s hs; exact linuxReach_spawned hs

/-- C2 witness: the invariant at concrete reachable states. -/
theorem C2_is_active_iff_engaged_witness :
    winIsActive (winAcquire (winInit true)) = winEngaged (winAcquire (winInit true))
    ∧ macIsActive envLiveTool procInit = procLive envLiveTool procInit
    ∧ (1 : Nat) ∈ (ProcState.mk (some 1) [1] []).spawned
    ∧ linuxIsActive envLiveTool procInit = procLive envLiveTool procInit
    ∧ (1 : Nat) ∈ (ProcState.mk (some 1) [1] []).spawned :=
  ⟨C2_is_active_iff_engaged.1 _ (WinReach.acq (WinReach.init true)),
   C2_is_active_iff_engaged.2.1 envLiveTool procInit,
   C2_is_active_iff_engaged.2.2.1 _
     (@MacReach.acq envLiveTool procInit (ProcState.mk (some 1) [1] []) MacReach.init rfl)
     1 rfl,
   C2_is_active_iff_engaged.2.2.2.1 envLiveTool procInit,
   C2_is_active_iff_engaged.2.2.2.2 _
     (@LinuxReach.acq envLiveTool procInit (ProcState.mk (some 1) [1] []) LinuxReach.init rfl)
     1 rfl⟩

/-! ## Claim C3 -/

/-- C3, counterexample: on the Windows backend with the binding loaded, a
second acquire() re-issues the native SetThreadExecutionState call — the
call trace holds two entries after acquire();acquire() but one after a
single acquire(), contradicting the claim that a second acquire does not
double-set the native execution-state flag. -/
theorem C3_counterexample :
    (winAcquire (winAcquire (winInit true))).calls
      = [ES_CONTINUOUS ||| ES_SYSTEM_REQUIRED, ES_CONTINUOUS ||| ES_SYSTEM_REQUIRED]
    ∧ (winAcquire (winInit true)).calls = [ES_CONTINUOUS ||| ES_SYSTEM_REQUIRED] := by
  constructor <;> rfl

/-- C3 (amended): calling acquire() twice in a row yields the same
observable lock state as calling it once on every backend, and spawns no
second helper process (the whole state, spawn trace included, is unchanged
on macOS/Linux); the Windows backend however re-issues the identical
execution-state call on the second acquire. -/
theorem C3_acquire_idempotent :
    (∀ s : WinState, winObs (winAcquire (winAcquire s)) = winObs (winAcquire s))
    ∧ (∀ (env : ProcEnv) (s s' : ProcState), env.wf →
        macAcquire env s = .ok s' → macAcquire env s' = .ok s')
    ∧ (∀ (env : ProcEnv) (s s' : ProcState), env.wf →
        linuxAcquire env s = .ok s' → linuxAcquire env s' = .ok s') := by
  refine ⟨?_, ?_, ?_⟩
  · intro s
    unfold winAcquire
    by_cases hk : s.kernel32 = false <;> simp [hk, winObs]
  · intro env s s' hwf heq
    unfold macAcquire at heq ⊢
    split at heq
    · cases heq
      rename_i hl
      simp [hl]
    · split at heq
      · cases heq
        rename_i hs2
        have : env.alive env.freshPid = true := hwf hs2
        simp [procLive, this]
      · cases heq
  · intro env s s' hwf heq
    unfold linuxAcquire at heq ⊢
    split at heq
    · cases heq
      rename_i hl
      simp [hl]
    · split at heq
      · split at heq
        · cases heq
          rename_i hs2
          have : env.alive env.freshPid = true := hwf hs2
          simp [procLive, this]
        · cases heq
      · cases heq
        rename_i hl hc
        simp [procLive, hl, hc]

/-- C3 witness: idempotence at concrete inputs (helper tool present and the
spawned process live). -/
theorem C3_acquire_idempotent_witness :
    winObs (winAcquire (winAcquire (winInit false))) = winObs (winAcquire (winInit false))
    ∧ macAcquire envLiveTool (ProcState.mk (some 1) [1] [])
        = .ok (ProcState.mk (some 1) [1] [])
    ∧ linuxAcquire envLiveTool (ProcState.mk (some 1) [1] [])
        = .ok (ProcState.mk (some 1) [1] []) :=
  ⟨C3_acquire_idempotent.1 (winInit false),
   C3_acquire_idempotent.2.1 envLiveTool procInit _ (fun _ => rfl) rfl,
   C3_acquire_idempotent.2.2 envLiveTool procInit _ (fun _ => rfl) rfl⟩

/-! ## Claim C4 -/

/-- C4, counterexample: release() on an inactive Windows lock (binding
loaded, never acquired) still issues a native
SetThreadExecutionState(ES_CONTINUOUS) call — contradicting the claim that
release() while inactive touches no native resource. -/
theorem C4_counterexample :
    winIsActive (winInit true) = false
    ∧ (winRelease (winInit true)).calls = [ES_CONTINUOUS] := by
  constructor <;> rfl

/-- C4 (amended): release() when inactive never throws and leaves
is_active() false on every backend; on macOS/Linux no native action is
taken (no terminate call; only the Python-side handle field is cleared),
while the Windows backend with the binding loaded re-issues
SetThreadExecutionState(ES_CONTINUOUS). -/
theorem C4_release_inactive_noop :
    (∀ s : WinState, winIsActive s = false →
        winIsActive (winRelease s) = false
        ∧ (s.kernel32 = false → winRelease s = s)
        ∧ (s.kernel32 = true → (winRelease s).calls = s.calls ++ [ES_CONTINUOUS]))
    ∧ (∀ (env : ProcEnv) (s : ProcState), macIsActive env s = false →
        macRelease env s = { s with proc := none }
        ∧ (macRelease env s).terminated = s.terminated
        ∧ ∀ env2 : ProcEnv, macIsActive env2 (macRelease env s) = false)
    ∧ (∀ (env : ProcEnv) (s : ProcState), linuxIsActive env s = false →
        linuxRelease env s = { s with proc := none }
        ∧ (linuxRelease env s).terminated = s.terminated
        ∧ ∀ env2 : ProcEnv, linuxIsActive env2 (linuxRelease env s) = false) := by
  refine ⟨?_, ?_, ?_⟩
  · intro s ha
    refine ⟨?_, ?_, ?_⟩
    · unfold winRelease winIsActive
      by_cases hk : s.kernel32 = false
      · simpa [hk] using ha
      · simp [hk]
    · intro hk; simp [winRelease, hk]
    · intro hk; simp [winRelease, hk]
  · intro env s ha
    have h1 : macRelease env s = { s with proc := none } := by
      unfold macRelease
      split
      · rename_i p hp
        unfold macIsActive procLive at ha
        rw [hp] at ha
        simp at ha
        simp [ha]
      · rfl
    refine ⟨h1, by rw [h1], fun env2 => by rw [h1]; rfl⟩
  · intro env s ha
    have h1 : linuxRelease env s = { s with proc := none } := by
      unfold linuxRelease
      split
      · rename_i p hp
        unfold linuxIsActive procLive at ha
        rw [hp] at ha
        simp at ha
        simp [ha]
      · rfl
    refine ⟨h1, by rw [h1], fun env2 => by rw [h1]; rfl⟩

/-- C4 witness: the amended claim at concrete inactive states. -/
theorem C4_release_inactive_noop_witness :
    winIsActive (winInit true) = false
    ∧ winIsActive (winRelease (winInit true)) = false
    ∧ macIsActive envNoTool procInit = false
    ∧ macRelease envNoTool procInit = { procInit with proc := none }
    ∧ linuxIsActive envNoTool procInit = false
    ∧ linuxRelease envNoTool procInit = { procInit with proc := none } :=
  ⟨rfl, (C4_release_inactive_noop.1 (winInit true) rfl).1, rfl,
   (C4_release_inactive_noop.2.1 envNoTool procInit rfl).1, rfl,
   (C4_release_inactive_noop.2.2 envNoTool procInit rfl).1⟩

/-! ## Claim C5 -/

/-- C5: after acquire() then release(), is_active() is false — on Windows
for every reachable starting state (the flags end at continuous-only when
the binding is loaded), on macOS/Linux for every starting state and
environments, whenever the acquire completed (the handle is cleared). -/
theorem C5_acquire_release_inactive :
    (∀ s : WinState, WinReach s → winIsActive (winRelease (winAcquire s)) = false)
    ∧ (∀ (env1 env2 env3 : ProcEnv) (s s' : ProcState),
        macAcquire env1 s = .ok s' → macIsActive env3 (macRelease env2 s') = false)
    ∧ (∀ (env1 env2 env3 : ProcEnv) (s s' : ProcState),
        linuxAcquire env1 s = .ok s' → linuxIsActive env3 (linuxRelease env2 s') = false) := by
  refine ⟨?_, ?_, ?_⟩
  · intro s hs
    by_cases hk : s.kernel32 = false
    · have ha : s.active = false := by
        rcases winReach_inv hs with ⟨h1, _⟩
        cases hae : s.active
        · rfl
        · rw [h1 hae] at hk; simp at hk
      simp [winAcquire, winRelease, winIsActive, hk, ha]
    · have hk2 : (winAcquire s).kernel32 = s.kernel32 := by
        unfold winAcquire; split <;> rfl
      unfold winRelease
      rw [hk2]
      simp [hk, winIsActive]
  · intro env1 env2 env3 s s' heq
    unfold macRelease
    split
    · split <;> rfl
    · rfl
  · intro env1 env2 env3 s s' heq
    unfold linuxRelease
    split
    · split <;> rfl
    · rfl

/-- C5 witness: acquire-then-release at concrete inputs. -/
theorem C5_acquire_release_inactive_witness :
    winIsActive (winRelease (winAcquire (winInit true))) = false
    ∧ macIsActive envLiveTool
        (macRelease envLiveTool (ProcState.mk (some 1) [1] [])) = false
    ∧ linuxIsActive envLiveTool
        (linuxRelease envLiveTool (ProcState.mk (some 1) [1] [])) = false :=
  ⟨C5_acquire_release_inactive.1 (winInit true) (WinReach.init true),
   C5_acquire_release_inactive.2.1 envLiveTool envLiveTool envLiveTool procInit _ rfl,
   C5_acquire_release_inactive.2.2 envLiveTool envLiveTool envLiveTool procInit _ rfl⟩

/-! ## Claim C6 -/

/-- With the binding unavailable, every Windows call sequence is inert. -/
lemma winRun_no_binding (ops : List WOp) :
    ∀ s : WinState, s.kernel32 = false → winRun ops s = s := by
  induction ops with
  | nil => intro s _; rfl
  | cons op ops ih =>
      intro s hk
      have hstep : winStep s op = s := by
        cases op <;> simp [winStep, winAcquire, winRelease, hk]
      show winRun ops (winStep s op) = s
      rw [hstep]
      exact ih s hk

/-- C6: when the native binding failed to load, Windows acquire() and
release() are no-ops, and is_active() is false after every finite sequence
of acquire/release calls from construction. -/
theorem C6_windows_no_binding :
    (∀ s : WinState, s.kernel32 = false → winAcquire s = s ∧ winRelease s = s)
    ∧ (∀ ops : List WOp, winIsActive (winRun ops (winInit false)) = false) := by
  constructor
  · intro s hk
    constructor <;> simp [winAcquire, winRelease, hk]
  · intro ops
    rw [winRun_no_binding ops (winInit false) rfl]
    rfl

/-- C6 witness: no-op behaviour at a concrete no-binding state and a
concrete call sequence. -/
theorem C6_windows_no_binding_witness :
    ((winInit false).kernel32 = false ∧ winAcquire (winInit false) = winInit false)
    ∧ winIsActive (winRun [WOp.acq, WOp.acq, WOp.rel, WOp.acq] (winInit false)) = false :=
  ⟨⟨rfl, (C6_windows_no_binding.1 (winInit false) rfl).1⟩,
   C6_windows_no_binding.2 [WOp.acq, WOp.acq, WOp.rel, WOp.acq]⟩

/-! ## Claim C7 -/

/-- C7: backend selection is the stated pure function of the platform
string: a platform beginning with "win" selects the Windows backend,
"darwin" the macOS backend, anything else the Linux backend. -/
theorem C7_make_wakelock_selection :
    (∀ p : List Char, "win".toList.isPrefixOf p = true → make_wakelock p = .windows)
    ∧ make_wakelock "darwin".toList = .mac
    ∧ (∀ p : List Char, "win".toList.isPrefixOf p = false →
        p ≠ "darwin".toList → make_wakelock p = .linux) := by
  refine ⟨?_, ?_, ?_⟩
  · intro p h
    unfold make_wakelock
    rw [h]
    simp
  · rfl
  · intro p h1 h2
    have h2b : p ≠ ['d', 'a', 'r', 'w', 'i', 'n'] := by simpa using h2
    unfold make_wakelock
    rw [h1]
    simp [h2b]

/-- C7 witness: selection at the concrete platform strings "win32",
"darwin" and "linux". -/
theorem C7_make_wakelock_selection_witness :
    make_wakelock "win32".toList = .windows
    ∧ make_wakelock "darwin".toList = .mac
    ∧ make_wakelock "linux".toList = .linux :=
  ⟨C7_make_wakelock_selection.1 "win32".toList (by decide),
   C7_make_wakelock_selection.2.1,
   C7_make_wakelock_selection.2.2 "linux".toList (by decide) (by decide)⟩

/-! ## Claim C8 -/

/-- C8: register() puts the _release callback on the atexit hook list, and
invoking that callback (_release, modelled by releaseCtl) when is_active()
is true calls the backend's release(). -/
theorem C8_exit_hook :
    (∀ (σ : Type) (h : Host σ), HostFn.releaseHook ∈ (register h).exitHooks)
    ∧ (∀ (σ ε : Type) (B : Backend σ ε) (env : ε) (s : σ),
        B.is_active env s = true → releaseCtl B env s = B.release env s) := by
  constructor
  · intro σ h
    simp [register]
  · intro σ ε B env s ha
    simp [releaseCtl, ha]

/-- C8 witness: hook registration on a fresh host, and hook invocation on
an active macOS lock performing the backend release. -/
theorem C8_exit_hook_witness :
    HostFn.releaseHook ∈ (register (host0 procInit)).exitHooks
    ∧ macBackend.is_active envLiveTool (ProcState.mk (some 1) [1] []) = true
    ∧ releaseCtl macBackend envLiveTool (ProcState.mk (some 1) [1] [])
        = macBackend.release envLiveTool (ProcState.mk (some 1) [1] []) :=
  ⟨C8_exit_hook.1 ProcState (host0 procInit), rfl,
   C8_exit_hook.2 ProcState ProcEnv macBackend envLiveTool
     (ProcState.mk (some 1) [1] []) rfl⟩

/-! ## Claim C9 -/

/-- C9: the render-pre handler acquires only when preferences are readable
and "enabled" is true — inaccessible preferences mean no acquire — while
the render-post and render-cancel handlers run _release regardless of the
preference state. -/
theorem C9_handler_gating :
    (∀ (σ ε : Type) (B : Backend σ ε) (env : ε) (s : σ),
        on_render_pre B none env s = .ok s)
    ∧ (∀ (σ ε : Type) (B : Backend σ ε) (env : ε) (s : σ) (p : Prefs),
        p.enabled = false → on_render_pre B (some p) env s = .ok s)
    ∧ (∀ (σ ε : Type) (B : Backend σ ε) (env : ε) (s : σ) (p : Prefs),
        p.enabled = true → B.is_active env s = false →
        on_render_pre B (some p) env s = B.acquire env s)
    ∧ (∀ (σ ε : Type) (B : Backend σ ε) (env : ε) (s : σ) (p1 p2 : Option Prefs),
        on_render_post B p1 env s = releaseCtl B env s
        ∧ on_render_cancel B p2 env s = releaseCtl B env s) := by
  refine ⟨?_, ?_, ?_, ?_⟩
  · intro σ ε B env s; rfl
  · intro σ ε B env s p hp
    simp [on_render_pre, acquire_if_enabled, hp]
  · intro σ ε B env s p hp ha
    simp [on_render_pre, acquire_if_enabled, hp, ha]
  · intro σ ε B env s p1 p2
    exact ⟨rfl, rfl⟩

/-- C9 witness: gating at concrete preferences and lock states on the
Linux backend. -/
theorem C9_handler_gating_witness :
    on_render_pre linuxBackend none envLiveTool procInit = .ok procInit
    ∧ on_render_pre linuxBackend (some (Prefs.mk false true false)) envLiveTool procInit
        = .ok procInit
    ∧ on_render_pre linuxBackend (some (Prefs.mk true true false)) envLiveTool procInit
        = linuxBackend.acquire envLiveTool procInit
    ∧ on_render_post linuxBackend none envLiveTool procInit
        = releaseCtl linuxBackend envLiveTool procInit :=
  ⟨C9_handler_gating.1 ProcState ProcEnv linuxBackend envLiveTool procInit,
   C9_handler_gating.2.1 ProcState ProcEnv linuxBackend envLiveTool procInit
     (Prefs.mk false true false) rfl,
   C9_handler_gating.2.2.1 ProcState ProcEnv linuxBackend envLiveTool procInit
     (Prefs.mk true true false) rfl rfl,
   (C9_handler_gating.2.2.2 ProcState ProcEnv linuxBackend envLiveTool procInit
     none none).1⟩

/-! ## Claim C10 -/

/-- C10: unregister() performs the release step first — its ghost action
trace appends the release action before the handler, statusbar and class
removals — the released lock value is computed from the pre-removal lock
state, and afterwards is_active() is false on every backend (for Windows,
from any reachable lock state). -/
theorem C10_unregister_releases_first :
    (∀ (σ ε : Type) (B : Backend σ ε) (env : ε) (h : Host σ),
        (unregister B env h).actions
          = h.actions ++ [HostAct.releaseAct, HostAct.removeHandlersAct,
              HostAct.removeStatusbarAct, HostAct.unregisterClassesAct,
              HostAct.redrawAct]
        ∧ (unregister B env h).lock = releaseCtl B env h.lock)
    ∧ (∀ (env : ProcEnv) (h : Host ProcState),
        macIsActive env (unregister macBackend env h).lock = false)
    ∧ (∀ (env : ProcEnv) (h : Host ProcState),
        linuxIsActive env (unregister linuxBackend env h).lock = false)
    ∧ (∀ h : Host WinState, WinReach h.lock →
        winIsActive (unregister winBackend () h).lock = false) := by
  refine ⟨?_, ?_, ?_, ?_⟩
  · intro σ ε B env h
    constructor
    · simp [unregister]
    · rfl
  · intro env h
    show macIsActive env (releaseCtl macBackend env h.lock) = false
    unfold releaseCtl
    by_cases hl : macBackend.is_active env h.lock = true
    · rw [if_pos hl]
      show macIsActive env (macRelease env h.lock) = false
      unfold macRelease
      split
      · split <;> rfl
      · rfl
    · rw [if_neg hl]
      simpa [macBackend] using hl
  · intro env h
    show linuxIsActive env (releaseCtl linuxBackend env h.lock) = false
    unfold releaseCtl
    by_cases hl : linuxBackend.is_active env h.lock = true
    · rw [if_pos hl]
      show linuxIsActive env (linuxRelease env h.lock) = false
      unfold linuxRelease
      split
      · split <;> rfl
      · rfl
    · rw [if_neg hl]
      simpa [linuxBackend] using hl
  · intro h hr
    show winIsActive (releaseCtl winBackend () h.lock) = false
    unfold releaseCtl
    by_cases hl : winBackend.is_active () h.lock = true
    · rw [if_pos hl]
      show winIsActive (winRelease h.lock) = false
      have hk : h.lock.kernel32 = true := (winReach_inv hr).1 hl
      simp [winRelease, winIsActive, hk]
    · rw [if_neg hl]
      simpa [winBackend, winIsActive] using hl

/-- C10 witness: unregister on a concrete host with an active Windows lock
releases it, and the action trace puts the release first. -/
theorem C10_unregister_releases_first_witness :
    (unregister winBackend () (host0 (winAcquire (winInit true)))).actions
      = [HostAct.releaseAct, HostAct.removeHandlersAct, HostAct.removeStatusbarAct,
         HostAct.unregisterClassesAct, HostAct.redrawAct]
    ∧ winIsActive (unregister winBackend () (host0 (winAcquire (winInit true)))).lock
        = false :=
  ⟨(C10_unregister_releases_first.1 WinState Unit winBackend ()
      (host0 (winAcquire (winInit true)))).1,
   C10_unregister_releases_first.2.2.2 (host0 (winAcquire (winInit true)))
     (WinReach.acq (WinReach.init true))⟩

end RenderWake
